import Mathlib

/-!
Shallow embedding of the multi-agent swarm orchestration core of
`dashboard_bot` (file `src/swarm.py`): the message bus, the router's
classification and synthesis, the worker registry, and the orchestrator's
execution loop.  Python strings are modelled as Lean `String`, Python's
substring test (`in`) and `str.lower` are modelled character-wise, and
wall-clock timestamps are modelled by a monotone counter threaded through
the bus state.
-/

/-- A recorded inter-agent message (`MessageBus.send` builds the dict with
keys `from`, `to`, `type`, `content`, `timestamp`). The wall-clock
timestamp string is abstracted to a `Nat` drawn from a monotone counter. -/
structure Message where
  msgFrom : String
  msgTo : String
  msgType : String
  content : String
  timestamp : Nat
deriving DecidableEq

/-- State of a `MessageBus` plus the clock supplying timestamps. -/
structure BusState where
  messages : List Message
  clock : Nat
deriving DecidableEq

/-- `MessageBus.__init__`: empty log (clock starts at 0). -/
def initBus : BusState := BusState.mk [] 0

/-- `MessageBus.send`: append one message carrying the current timestamp. -/
def send (st : BusState) (from_agent to_agent message_type content : String) : BusState :=
  BusState.mk
    (st.messages ++ [Message.mk from_agent to_agent message_type content st.clock])
    (st.clock + 1)

/-- `MessageBus.get_context_for`: the messages whose `to` or `from` field
equals the given agent name, in log order. -/
def get_context_for (messages : List Message) (agent_name : String) : List Message :=
  messages.filter (fun msg => msg.msgTo == agent_name || msg.msgFrom == agent_name)

/-- `MessageBus.clear`: empty the log (the clock is unaffected). -/
def clear (st : BusState) : BusState := BusState.mk [] st.clock

/-- A sequence of `send` calls, each a (from, to, type, content) tuple. -/
def recordAll : BusState → List (String × String × String × String) → BusState
  | st, [] => st
  | st, c :: rest => recordAll (send st c.1 c.2.1 c.2.2.1 c.2.2.2) rest

/-- One delegation produced by the router: the dict
`{"agent": ..., "task": ...}`. -/
structure Delegation where
  agent : String
  task : String
deriving DecidableEq

/-- Python `str.lower` (ASCII case folding, per `Char.toLower`). -/
def pyLower (s : String) : String := String.mk (s.data.map Char.toLower)

/-- Python `pat in s` on the character list: `pat` occurs contiguously. -/
def containsSub : List Char → List Char → Bool
  | [], pat => pat.isEmpty
  | c :: t, pat => pat.isPrefixOf (c :: t) || containsSub t pat

/-- Python `pat in s` for strings. -/
def pyContains (s pat : String) : Bool := containsSub s.data pat.data

/-- Python `s[:n]`: the first `n` characters of `s`. -/
def pyTake (n : Nat) (s : String) : String := String.mk (s.data.take n)

/-- Python `str.capitalize`: first character uppercased, rest lowercased. -/
def capitalize (s : String) : String :=
  match s.data with
  | [] => String.mk []
  | c :: rest => String.mk (c.toUpper :: rest.map Char.toLower)

/-- The nine trigger substrings of the classification table in
`RouterAgent.analyze_and_delegate`. -/
def triggerSubstrings : List String :=
  ["jira", "task", "ticket", "email", "outlook", "mail", "note", "obsidian", "daily"]

/-- The delegation emitted by the issue-tracker row (swarm.py lines 103-107). -/
def jiraDelegation : Delegation :=
  Delegation.mk "researcher" "Query Jira for critical alerts and pending tasks"

/-- The delegation emitted by the mail row (swarm.py lines 109-113). -/
def mailDelegation : Delegation :=
  Delegation.mk "researcher" "Fetch and summarize recent unread emails"

/-- The delegation emitted by the note row (swarm.py lines 115-119). -/
def noteDelegation : Delegation :=
  Delegation.mk "coder" "Create or update the daily note with gathered information"

/-- Condition of the issue-tracker row (swarm.py line 103). -/
def matchesJiraRow (task_lower : String) : Bool :=
  pyContains task_lower "jira" || pyContains task_lower "task" || pyContains task_lower "ticket"

/-- Condition of the mail row (swarm.py line 109). -/
def matchesMailRow (task_lower : String) : Bool :=
  pyContains task_lower "email" || pyContains task_lower "outlook" || pyContains task_lower "mail"

/-- Condition of the note row (swarm.py line 115). -/
def matchesNoteRow (task_lower : String) : Bool :=
  pyContains task_lower "note" || pyContains task_lower "obsidian" || pyContains task_lower "daily"

/-- The sequential appends of the three table rows (swarm.py lines 99-119). -/
def rowDelegations (task_lower : String) : List Delegation :=
  (if matchesJiraRow task_lower then [jiraDelegation] else []) ++
  (if matchesMailRow task_lower then [mailDelegation] else []) ++
  (if matchesNoteRow task_lower then [noteDelegation] else [])

/-- `RouterAgent.analyze_and_delegate` (swarm.py lines 88-128): the three
table rows, then the `{coder, task}` fallback when no row fired. -/
def analyze_and_delegate (task : String) : List Delegation :=
  let delegations := rowDelegations (pyLower task)
  if delegations.isEmpty then [Delegation.mk "coder" task] else delegations

/-- The result line of one step of the synthesis (swarm.py line 146):
the result cut to its first 500 characters, with an ellipsis marker
exactly when the result is longer than 500 characters. -/
def renderResult (result : String) : String :=
  "**Result:** " ++ pyTake 500 result ++ (if 500 < result.length then "..." else "") ++ "\n"

/-- The step sub-heading of the synthesis (swarm.py line 144). -/
def stepHeader (i : Nat) (d : Delegation) : String :=
  "### Step " ++ toString i ++ ": " ++ capitalize d.agent

/-- The three parts appended for one (delegation, result) pair
(swarm.py lines 144-146). -/
def stepParts (i : Nat) (d : Delegation) (r : String) : List String :=
  [stepHeader i d, "**Task:** " ++ d.task, renderResult r]

/-- The loop of `synthesize_results` on `enumerate(zip(...), 1)`
(swarm.py line 143), started at counter `i`. -/
def stepsFrom : Nat → List (Delegation × String) → List String
  | _, [] => []
  | i, p :: rest => stepParts i p.1 p.2 ++ stepsFrom (i + 1) rest

/-- The full `synthesis_parts` list built by `RouterAgent.synthesize_results`
(swarm.py lines 141-146). -/
def synthesize_parts (delegations : List Delegation) (results : List String) : List String :=
  "## Task Summary\n" :: stepsFrom 1 (delegations.zip results)

/-- `RouterAgent.synthesize_results` (swarm.py lines 130-148):
`"\n".join(synthesis_parts)`. -/
def synthesize_results (delegations : List Delegation) (results : List String) : String :=
  String.intercalate "\n" (synthesize_parts delegations results)

/-- The leading characters "### Step " of a step sub-heading. -/
def stepMark : List Char := ['#', '#', '#', ' ', 'S', 't', 'e', 'p', ' ']

/-- A report part is a step sub-heading exactly when it starts with
"### Step ". -/
def isStepLine (s : String) : Bool := stepMark.isPrefixOf s.data

/-- The expected step sub-headings for a delegation list, numbered
consecutively from `i`. -/
def headersFromD : Nat → List Delegation → List String
  | _, [] => []
  | i, d :: rest => stepHeader i d :: headersFromD (i + 1) rest

/-- The worker agents registered in `SwarmOrchestrator.__init__`. -/
inductive Worker where
  | coder
  | reviewer
  | researcher
deriving DecidableEq

/-- `CoderAgent.execute`, `ReviewerAgent.execute`, `ResearcherAgent.execute`
(swarm.py lines 151-183): each formats a fixed string around the task;
the context argument is ignored by all three stand-in workers. -/
def Worker.execute : Worker → String → List Message → String
  | Worker.coder, task, _ => "[Coder] Executed task: " ++ task
  | Worker.reviewer, task, _ => "[Reviewer] Reviewed: " ++ task
  | Worker.researcher, task, _ => "[Researcher] Gathered information for: " ++ task

/-- The registry `self.workers` fixed at `SwarmOrchestrator.__init__`
(swarm.py lines 209-213), in insertion order. -/
def workers : List (String × Worker) :=
  [("coder", Worker.coder), ("reviewer", Worker.reviewer), ("researcher", Worker.researcher)]

/-- `self.workers.get(agent_name)` (swarm.py line 258). -/
def workersGet (agent_name : String) : Option Worker :=
  (workers.find? (fun p => p.1 == agent_name)).map Prod.snd

/-- One iteration of the delegation loop of `SwarmOrchestrator.execute`
(swarm.py lines 245-279): record the task message, look the worker up,
on a miss produce the fixed error string and continue, otherwise compute
the context, run the worker, record and collect its result. -/
def execStep (st : BusState) (d : Delegation) : BusState × String :=
  let st1 := send st "router" d.agent "task" d.task
  match workersGet d.agent with
  | none => (st1, "Error: Unknown agent \x27" ++ d.agent ++ "\x27")
  | some worker =>
    let result := Worker.execute worker d.task (get_context_for st1.messages d.agent)
    (send st1 d.agent "router" "result" result, result)

/-- The delegation loop of `SwarmOrchestrator.execute` (swarm.py
lines 244-279), collecting one result per delegation in order. -/
def execLoop : BusState → List Delegation → BusState × List String
  | st, [] => (st, [])
  | st, d :: rest =>
    let p := execStep st d
    let q := execLoop p.1 rest
    (q.1, p.2 :: q.2)

/-- `SwarmOrchestrator.execute` (swarm.py lines 217-292): classify, run the
loop, synthesize. -/
def execute (st : BusState) (user_task : String) : BusState × String :=
  let delegations := analyze_and_delegate user_task
  let p := execLoop st delegations
  (p.1, synthesize_results delegations p.2)

/-- C1: a request whose lowercased text contains none of the nine trigger
substrings classifies to exactly one delegation, the fallback
`{coder, request}` with the request text unmodified. -/
theorem classify_no_trigger_fallback (request : String)
    (h : ∀ t ∈ triggerSubstrings, pyContains (pyLower request) t = false) :
    analyze_and_delegate request = [Delegation.mk "coder" request] := by
  have h1 := h "jira" (by simp [triggerSubstrings])
  have h2 := h "task" (by simp [triggerSubstrings])
  have h3 := h "ticket" (by simp [triggerSubstrings])
  have h4 := h "email" (by simp [triggerSubstrings])
  have h5 := h "outlook" (by simp [triggerSubstrings])
  have h6 := h "mail" (by simp [triggerSubstrings])
  have h7 := h "note" (by simp [triggerSubstrings])
  have h8 := h "obsidian" (by simp [triggerSubstrings])
  have h9 := h "daily" (by simp [triggerSubstrings])
  simp [analyze_and_delegate, rowDelegations, matchesJiraRow, matchesMailRow, matchesNoteRow,
    h1, h2, h3, h4, h5, h6, h7, h8, h9]

/-- Witness for C1 at the request "hello world". -/
theorem classify_no_trigger_fallback_witness :
    analyze_and_delegate "hello world" = [Delegation.mk "coder" "hello world"] :=
  classify_no_trigger_fallback "hello world" (by decide)

/-- C2: a request matching two or more table rows classifies to exactly the
delegations of the matched rows, one per row, in the fixed table order
(issue-tracker row, then mail row, then note row), with no fallback. -/
theorem classify_multi_trigger_table_order (request : String)
    (h : (matchesJiraRow (pyLower request) && matchesMailRow (pyLower request) ||
          matchesJiraRow (pyLower request) && matchesNoteRow (pyLower request) ||
          matchesMailRow (pyLower request) && matchesNoteRow (pyLower request)) = true) :
    analyze_and_delegate request =
      (if matchesJiraRow (pyLower request) then [jiraDelegation] else []) ++
      (if matchesMailRow (pyLower request) then [mailDelegation] else []) ++
      (if matchesNoteRow (pyLower request) then [noteDelegation] else []) := by
  cases hj : matchesJiraRow (pyLower request) <;>
    cases hm : matchesMailRow (pyLower request) <;>
      cases hn : matchesNoteRow (pyLower request) <;>
        simp [hj, hm, hn] at h ⊢ <;>
        simp [analyze_and_delegate, rowDelegations, hj, hm, hn]

/-- Witness for C2 at the request "check email and update daily note". -/
theorem classify_multi_trigger_table_order_witness :
    analyze_and_delegate "check email and update daily note" =
      [mailDelegation, noteDelegation] := by
  rw [classify_multi_trigger_table_order "check email and update daily note" (by decide)]
  decide

/-- C3 counterexample: on "Summarize my jira tasks" the issue-tracker row's
delegation task text is not "Query issue tracker for critical alerts and
pending tasks" (the code's text reads "Query Jira ..."). -/
theorem classify_jira_task_text_counterexample :
    ¬ (analyze_and_delegate "Summarize my jira tasks" =
      [Delegation.mk "researcher" "Query issue tracker for critical alerts and pending tasks"]) := by
  decide

/-- C3 amended: a request whose lowercased text matches the issue-tracker
row emits `{researcher, "Query Jira for critical alerts and pending tasks"}`
first, and "Summarize my jira tasks" classifies to exactly that one
delegation. -/
theorem classify_jira_row_amended (request : String)
    (h : matchesJiraRow (pyLower request) = true) :
    (analyze_and_delegate request).head? = some jiraDelegation ∧
    analyze_and_delegate "Summarize my jira tasks" = [jiraDelegation] := by
  constructor
  · simp [analyze_and_delegate, rowDelegations, h]
  · decide

/-- Witness for C3's amended theorem at "Summarize my jira tasks". -/
theorem classify_jira_row_amended_witness :
    (analyze_and_delegate "Summarize my jira tasks").head? = some jiraDelegation :=
  (classify_jira_row_amended "Summarize my jira tasks" (by decide)).1

/-- Taking a prefix at least as long as the string returns the string. -/
theorem pyTake_of_le (n : Nat) (s : String) (h : s.length ≤ n) : pyTake n s = s := by
  apply String.ext
  exact List.take_of_length_le h

/-- C4: in each step of the synthesis, the result line reproduces a result
of length at most 500 verbatim with no ellipsis marker, and cuts a longer
result to exactly its first 500 characters followed by "...". -/
theorem synthesize_truncation (i : Nat) (d : Delegation) (r : String) :
    (stepParts i d r)[2]? = some (renderResult r) ∧
    (r.length ≤ 500 → renderResult r = "**Result:** " ++ r ++ "\n") ∧
    (500 < r.length →
      renderResult r = "**Result:** " ++ pyTake 500 r ++ "..." ++ "\n" ∧
      (pyTake 500 r).length = 500) := by
  refine ⟨rfl, ?_, ?_⟩
  · intro h
    simp [renderResult, Nat.not_lt.2 h, pyTake_of_le 500 r h]
  · intro h
    refine ⟨by simp [renderResult, h], ?_⟩
    have : (pyTake 500 r).length = (r.data.take 500).length := rfl
    rw [this, List.length_take]
    exact Nat.min_eq_left (Nat.le_of_lt h)

/-- Witness for C4 at a short result. -/
theorem synthesize_truncation_witness :
    renderResult "3 tasks found" = "**Result:** " ++ "3 tasks found" ++ "\n" :=
  (synthesize_truncation 1 (Delegation.mk "researcher" "t") "3 tasks found").2.1 (by decide)

/-- C5: a delegation naming an agent absent from the registry yields the
fixed error string as its result, leaves the bus exactly as after recording
the task message (no worker is invoked, no result message is recorded), and
the loop still proceeds to the remaining delegations. -/
theorem execStep_unknown_agent (st : BusState) (d : Delegation) (ds : List Delegation)
    (h : workersGet d.agent = none) :
    (execStep st d).2 = "Error: Unknown agent \x27" ++ d.agent ++ "\x27" ∧
    (execStep st d).1 = send st "router" d.agent "task" d.task ∧
    execLoop st (d :: ds) =
      ((execLoop (execStep st d).1 ds).1,
        (execStep st d).2 :: (execLoop (execStep st d).1 ds).2) := by
  refine ⟨?_, ?_, rfl⟩ <;> simp [execStep, h]

/-- Witness for C5 at the unregistered agent name "ghost". -/
theorem execStep_unknown_agent_witness :
    (execStep initBus (Delegation.mk "ghost" "x")).2 =
      "Error: Unknown agent \x27" ++ "ghost" ++ "\x27" :=
  (execStep_unknown_agent initBus (Delegation.mk "ghost" "x") [] (by decide)).1

/-- The execution loop yields exactly one result per delegation. -/
theorem execLoop_length (ds : List Delegation) : ∀ st : BusState,
    (execLoop st ds).2.length = ds.length := by
  induction ds with
  | nil => intro st; rfl
  | cons d rest ih => intro st; simp [execLoop, ih]

/-- C6: for every request, after the execution loop the result list has
exactly the length of the delegation list produced by classification. -/
theorem execLoop_results_length (st : BusState) (request : String) :
    (execLoop st (analyze_and_delegate request)).2.length =
      (analyze_and_delegate request).length :=
  execLoop_length (analyze_and_delegate request) st

/-- Each `send` call grows the log by exactly one message. -/
theorem recordAll_length (calls : List (String × String × String × String)) :
    ∀ st : BusState, (recordAll st calls).messages.length = st.messages.length + calls.length := by
  induction calls with
  | nil => intro st; simp [recordAll]
  | cons c rest ih => intro st; simp [recordAll, ih, send]; omega

/-- C7: after N record calls, the context for a name is a sublist of the log
(hence in insertion order), holds exactly the recorded messages whose `to`
or `from` field equals the name, the log holds all N messages, and after
`clear` the context of any name is empty. -/
theorem contextFor_filter_spec (calls : List (String × String × String × String)) (name : String) :
    List.Sublist (get_context_for (recordAll initBus calls).messages name)
      (recordAll initBus calls).messages ∧
    (∀ m : Message, m ∈ get_context_for (recordAll initBus calls).messages name ↔
      (m ∈ (recordAll initBus calls).messages ∧ (m.msgTo = name ∨ m.msgFrom = name))) ∧
    (recordAll initBus calls).messages.length = calls.length ∧
    get_context_for (clear (recordAll initBus calls)).messages name = [] := by
  refine ⟨List.filter_sublist _, ?_, ?_, rfl⟩
  · intro m
    simp [get_context_for, List.mem_filter]
  · simpa [initBus] using recordAll_length calls initBus

/-- C9: dispatching a delegation to a registered worker records the task
message first and computes the worker's context only afterwards, so the
context passed to the worker contains that delegation's own task message. -/
theorem task_message_in_context (st : BusState) (d : Delegation) (w : Worker)
    (h : workersGet d.agent = some w) :
    execStep st d =
      (send (send st "router" d.agent "task" d.task) d.agent "router" "result"
        (Worker.execute w d.task
          (get_context_for (send st "router" d.agent "task" d.task).messages d.agent)),
       Worker.execute w d.task
         (get_context_for (send st "router" d.agent "task" d.task).messages d.agent)) ∧
    Message.mk "router" d.agent "task" d.task st.clock ∈
      get_context_for (send st "router" d.agent "task" d.task).messages d.agent := by
  constructor
  · simp [execStep, h]
  · simp [get_context_for, send, List.mem_filter]

/-- Witness for C9 at the registered worker "coder". -/
theorem task_message_in_context_witness :
    Message.mk "router" "coder" "task" "x" 0 ∈
      get_context_for (send initBus "router" "coder" "task" "x").messages "coder" :=
  (task_message_in_context initBus (Delegation.mk "coder" "x") Worker.coder (by decide)).2

/-- Every delegation built by a table row is one of the three fixed ones. -/
theorem mem_rowDelegations (l : String) (d : Delegation) (h : d ∈ rowDelegations l) :
    d = jiraDelegation ∨ d = mailDelegation ∨ d = noteDelegation := by
  simp only [rowDelegations, List.mem_append] at h
  rcases h with (h | h) | h <;> split at h <;> simp_all

/-- C10: every delegation produced by classification names "researcher" or
"coder", and that name is a key of the registry fixed at construction, so
the unknown-agent branch of the execution loop is never reached on
classified delegations. -/
theorem classify_agents_registered (request : String) (d : Delegation)
    (h : d ∈ analyze_and_delegate request) :
    (d.agent = "researcher" ∨ d.agent = "coder") ∧ ¬ (workersGet d.agent = none) := by
  simp only [analyze_and_delegate] at h
  split at h
  · simp only [List.mem_singleton] at h
    subst h
    exact ⟨Or.inr rfl, (by decide : ¬ workersGet "coder" = none)⟩
  · rcases mem_rowDelegations _ _ h with h1 | h1 | h1 <;> subst h1 <;> exact (by decide)

/-- Witness for C10 at the request "jira". -/
theorem classify_agents_registered_witness :
    (jiraDelegation.agent = "researcher" ∨ jiraDelegation.agent = "coder") ∧
      ¬ (workersGet jiraDelegation.agent = none) :=
  classify_agents_registered "jira" jiraDelegation (by decide)

/-- A list is a prefix of itself followed by anything. -/
theorem isPrefixOf_append_self : ∀ p l : List Char, p.isPrefixOf (p ++ l) = true := by
  intro p l
  induction p with
  | nil => cases l <;> rfl
  | cons c rest ih => simp [List.isPrefixOf, ih]

/-- Every step sub-heading starts with "### Step ". -/
theorem isStepLine_stepHeader (i : Nat) (d : Delegation) :
    isStepLine (stepHeader i d) = true := by
  unfold isStepLine stepHeader
  rw [String.data_append, String.data_append, String.data_append]
  have hA : ("### Step ").data = stepMark := by decide
  rw [hA, List.append_assoc, List.append_assoc]
  exact isPrefixOf_append_self stepMark _

/-- "### Step " is not a prefix of a line opening with an asterisk. -/
theorem stepMark_not_star (l : List Char) : stepMark.isPrefixOf ('*' :: l) = false := rfl

/-- Task lines of the synthesis are not step sub-headings. -/
theorem isStepLine_taskLine (t : String) : isStepLine ("**Task:** " ++ t) = false := by
  unfold isStepLine
  rw [String.data_append]
  have hA : ("**Task:** ").data = '*' :: ("*Task:** ").data := by decide
  rw [hA, List.cons_append]
  exact stepMark_not_star _

/-- Result lines of the synthesis are not step sub-headings. -/
theorem isStepLine_renderResult (r : String) : isStepLine (renderResult r) = false := by
  unfold isStepLine renderResult
  rw [String.data_append, String.data_append, String.data_append]
  have hA : ("**Result:** ").data = '*' :: ("*Result:** ").data := by decide
  rw [hA, List.cons_append, List.cons_append, List.cons_append]
  exact stepMark_not_star _

/-- The report header is not a step sub-heading. -/
theorem isStepLine_summary : isStepLine "## Task Summary\n" = false := by decide

/-- The step sub-headings among the loop parts of the synthesis are exactly
one per (delegation, result) pair, numbered consecutively. -/
theorem filter_stepsFrom (pairs : List (Delegation × String)) : ∀ i : Nat,
    (stepsFrom i pairs).filter isStepLine = headersFromD i (pairs.map Prod.fst) := by
  induction pairs with
  | nil => intro i; rfl
  | cons p rest ih =>
    intro i
    simp [stepsFrom, stepParts, List.filter_append, List.filter_cons, isStepLine_stepHeader,
      isStepLine_taskLine, isStepLine_renderResult, headersFromD, ih]

/-- `headersFromD` yields one sub-heading per delegation. -/
theorem headersFromD_length (ds : List Delegation) : ∀ i : Nat,
    (headersFromD i ds).length = ds.length := by
  induction ds with
  | nil => intro i; rfl
  | cons d rest ih => intro i; simp [headersFromD, ih]

/-- C8: the report of `execute` is the synthesis of the classified
delegations with the loop's results, and its parts contain exactly one step
sub-heading per classified delegation, numbered consecutively from 1 in
delegation order, each naming the capitalized handler name. -/
theorem report_step_sections (st : BusState) (request : String) :
    (execute st request).2 =
      synthesize_results (analyze_and_delegate request)
        (execLoop st (analyze_and_delegate request)).2 ∧
    (synthesize_parts (analyze_and_delegate request)
        (execLoop st (analyze_and_delegate request)).2).filter isStepLine =
      headersFromD 1 (analyze_and_delegate request) ∧
    (headersFromD 1 (analyze_and_delegate request)).length =
      (analyze_and_delegate request).length := by
  refine ⟨rfl, ?_, headersFromD_length _ 1⟩
  have hlen : (analyze_and_delegate request).length ≤
      (execLoop st (analyze_and_delegate request)).2.length :=
    Nat.le_of_eq (execLoop_length _ st).symm
  simp only [synthesize_parts, List.filter_cons, isStepLine_summary, Bool.false_eq_true,
    if_false, filter_stepsFrom, List.map_fst_zip _ _ hlen]
